import Mathlib

/-!
Shallow embedding of the ContextLinc context-assembly engine
(`workers/api/src/services/contextEngine.ts`, the class `ContextEngine`),
the AI gateway (`workers/api/src/services/aiService.ts`, class `AIService`),
the embedding service (`workers/file-processor`-side `EmbeddingService`),
and the `/context` HTTP routes (Hono router).

Conventions of the embedding:
* JavaScript numbers that carry scores are modelled as `ℚ` (all constants in
  the source are exact decimals); counters are `Nat`.
* Database calls (Cloudflare D1) and external HTTP calls are modelled by an
  environment record holding each call's outcome (`Except Unit _` for DB
  reads that the source wraps in try/catch, `Except String _` for provider
  calls whose error message the source propagates).  The engine itself is a
  pure function of that environment, the query and the attached-file list.
* Token counts are `estimateTokens` applied to the length of the
  `JSON.stringify` serialization of a layer payload; the serialization
  length is modelled by the structural length function `LayerData.serLen`
  (no verified claim constrains token counts, only the estimator shape).
-/

/-- Status of a context layer: `'active' | 'inactive' | 'processing'`. -/
inductive LayerStatus where
  | active
  | inactive
  | processing
deriving DecidableEq, Repr

/-- Query complexity classes produced by `assessComplexity`. -/
inductive Complexity where
  | simple
  | medium
  | complex
deriving DecidableEq, Repr

/-- Parsed `user_preferences` row (fields may be absent in the stored JSON). -/
structure UserPrefs where
  responseStyle : Option String := none
  detailLevel : Option String := none
  preferredFormats : Option (List String) := none
deriving DecidableEq, Repr

/-- Result row of the session-stats query over `messages`. -/
structure SessionStats where
  messageCount : Nat
  lastActivity : Option String
deriving DecidableEq, Repr

/-- A row of the recent-interactions query (`type, content, timestamp`). -/
structure Interaction where
  msgType : String
  content : String
  timestamp : String
deriving DecidableEq, Repr

/-- A `files` row as selected by `getFileContext`. -/
structure FileRow where
  filename : String
  fileType : String
  extractedContent : Option String
deriving DecidableEq, Repr

/-- A document returned by `retrieveRelevantDocuments`. -/
structure RetrievedDoc where
  content : String
deriving DecidableEq, Repr

/-- Result of `getDomainExpertise`. -/
structure DomainExpertise where
  domain : String
  confidence : ℚ
deriving DecidableEq, Repr

/-- A task row (`getCurrentTasks`; the source stub never produces one). -/
structure TaskRow where
  title : String
deriving DecidableEq, Repr

/-- A memory item as returned by the tier getters. -/
structure MemoryRecord where
  recType : String
  content : String
  summary : String
deriving DecidableEq, Repr

/-- Tool-catalog entry of `buildToolsLayer`. -/
structure ToolInfo where
  name : String
  description : String
  status : String
  capabilities : List String
deriving DecidableEq, Repr

/-- Few-shot / relevant example item (source stubs never produce one). -/
structure ExampleItem where
  input : String
  output : String
deriving DecidableEq, Repr

/-- Payload of the Instructions layer (constant object in the source). -/
structure InstructionsData where
  constitution : String
  persona : String
  goals : List String
  ethicalBoundaries : List String
  capabilities : List String
deriving DecidableEq, Repr

/-- Personalization sub-object of the User Info payload. -/
structure Personalization where
  responseStyle : String
  detailLevel : String
  preferredFormats : List String
deriving DecidableEq, Repr

/-- Payload of the User Info layer. -/
structure UserInfoData where
  userId : String
  sessionId : String
  preferences : UserPrefs
  sessionStats : SessionStats
  interactionHistory : List Interaction
  personalization : Personalization
deriving DecidableEq, Repr

/-- Payload of the Knowledge layer. -/
structure KnowledgeData where
  retrievedDocuments : List RetrievedDoc
  fileContext : List FileRow
  domainExpertise : DomainExpertise
  embeddingMatches : Nat
  totalDocuments : Nat
  lastIndexUpdate : String
deriving DecidableEq, Repr

/-- Payload of the Task/Goal State layer. -/
structure TaskStateData where
  currentTask : Option TaskRow
  activeTasks : List TaskRow
  workflowState : String
  progress : ℚ
  goals : List String
deriving DecidableEq, Repr

/-- Payload of the Memory layer (tier blocks plus totals). -/
structure MemoryData where
  shortTermItems : List MemoryRecord
  shortCapacity : Nat
  shortRetention : String
  mediumTermItems : List MemoryRecord
  mediumCapacity : Nat
  mediumRetention : String
  longTermItems : List MemoryRecord
  longCapacity : String
  longRetention : String
  totalItems : Nat
deriving DecidableEq, Repr

/-- Payload of the Tools layer. -/
structure ToolsData where
  available : List ToolInfo
  active : List ToolInfo
  totalTools : Nat
  lastUsed : Option String
deriving DecidableEq, Repr

/-- Payload of the Examples layer. -/
structure ExamplesData where
  fewShot : List ExampleItem
  relevant : List ExampleItem
  total : Nat
  categories : List String
deriving DecidableEq, Repr

/-- Payload of the Context (conversation) layer. -/
structure ConversationData where
  sessionStart : String
  lastInteraction : Option String
  contextSwitches : Nat
deriving DecidableEq, Repr

/-- Payload of the Constraints layer (constant object in the source). -/
structure ConstraintsData where
  maxTokens : Nat
  responseTimeLimit : String
  concurrentRequests : Nat
  fileSizeLimit : String
  contentFiltering : Bool
  privacyProtection : Bool
  harmfulContentDetection : Bool
  copyrightRespect : Bool
  minConfidenceThreshold : ℚ
  factualAccuracy : Bool
  citationRequired : Bool
  biasDetection : Bool
deriving DecidableEq, Repr

/-- Style sub-object of the Output Format payload. -/
structure OutputStyle where
  tone : String
  detail : String
  examples : Bool
deriving DecidableEq, Repr

/-- Payload of the Output Format layer. -/
structure OutputFormatData where
  preferredFormat : String
  supportedFormats : List String
  includeConfidence : Bool
  includeSources : Bool
  includeTimestamp : Bool
  includeContext : Bool
  style : OutputStyle
deriving DecidableEq, Repr

/-- Payload of the User Query layer (`analyzeQuery` output plus timestamp). -/
structure QueryData where
  original : String
  processed : String
  intent : String
  entities : List String
  complexity : Complexity
  requiresFiles : Bool
  expectedResponseType : String
  timestamp : String
deriving DecidableEq, Repr

/-- Variant payload carried in a layer's `data` field. -/
inductive LayerData where
  | instructions (d : InstructionsData)
  | userInfo (d : UserInfoData)
  | knowledge (d : KnowledgeData)
  | taskState (d : TaskStateData)
  | memory (d : MemoryData)
  | tools (d : ToolsData)
  | examples (d : ExamplesData)
  | conversation (d : ConversationData)
  | constraints (d : ConstraintsData)
  | outputFormat (d : OutputFormatData)
  | userQuery (d : QueryData)
deriving DecidableEq, Repr

/-- One of the 11 context layers (`interface ContextLayer`). -/
structure ContextLayer where
  id : Nat
  name : String
  status : LayerStatus
  data : LayerData
  tokenCount : Nat
  relevanceScore : ℚ
deriving DecidableEq, Repr

/-- The assembled context window (`interface ContextWindow`). -/
structure ContextWindow where
  layers : List ContextLayer
  activeLayers : List Nat
  relevanceScore : ℚ
  tokenCount : Nat
  lastUpdate : String
deriving DecidableEq, Repr

/-- Outcomes of the engine's external reads: each field is the result the
Cloudflare D1 database (or the wall clock) would deliver during one
assembly.  `Except Unit` models the try/catch wrappers in the source: the
engine sees either the rows or a thrown error it swallows. -/
structure EngineEnv where
  userId : String
  sessionId : String
  userPrefs : Except Unit UserPrefs
  sessionStats : Except Unit SessionStats
  recentInteractions : Except Unit (List Interaction)
  fileRows : List String → Except Unit (List FileRow)
  totalDocCount : Except Unit Nat
  now : String

/-- Embeds `estimateTokens`: `Math.ceil(text.length / 4)` on a length. -/
def estimateTokensLen (len : Nat) : Nat := (len + 3) / 4

/-- Embeds `estimateTokens(text)` of the source, on the text itself. -/
def estimateTokens (text : String) : Nat := estimateTokensLen text.length

/-- Length of the `JSON.stringify` serialization of a layer payload,
modelled structurally (string-content lengths plus fixed punctuation
overhead per variant).  No verified claim constrains these values. -/
def LayerData.serLen : LayerData → Nat
  | .instructions d =>
      d.constitution.length + d.persona.length
        + (d.goals.map String.length).sum
        + (d.ethicalBoundaries.map String.length).sum
        + (d.capabilities.map String.length).sum + 120
  | .userInfo d =>
      d.userId.length + d.sessionId.length
        + (d.interactionHistory.map (fun i => i.content.length)).sum + 160
  | .knowledge d =>
      (d.retrievedDocuments.map (fun r => r.content.length)).sum
        + (d.fileContext.map (fun f => f.filename.length)).sum
        + d.domainExpertise.domain.length + d.lastIndexUpdate.length + 140
  | .taskState d => (d.activeTasks.map (fun t => t.title.length)).sum + 110
  | .memory d =>
      (d.shortTermItems.map (fun m => m.content.length)).sum
        + (d.mediumTermItems.map (fun m => m.content.length)).sum
        + (d.longTermItems.map (fun m => m.content.length)).sum + 180
  | .tools d =>
      (d.available.map (fun t => t.name.length + t.description.length
        + (t.capabilities.map String.length).sum)).sum + 90
  | .examples d =>
      (d.fewShot.map (fun e => e.input.length + e.output.length)).sum
        + (d.relevant.map (fun e => e.input.length + e.output.length)).sum + 100
  | .conversation d => d.sessionStart.length + 130
  | .constraints _ => 330
  | .outputFormat d => d.preferredFormat.length + 260
  | .userQuery d => d.original.length + d.processed.length
        + (d.entities.map String.length).sum + d.timestamp.length + 170

/-- Embeds `query.includes(sub)` of JavaScript strings. -/
def jsIncludes (s sub : String) : Bool := decide (sub.toList <:+: s.toList)

/-- Embeds `s.startsWith(sub)` of JavaScript strings. -/
def jsStartsWith (s sub : String) : Bool := decide (sub.toList <+: s.toList)

/-- Embeds `s.toLowerCase()` of JavaScript strings. -/
def jsToLower (s : String) : String := String.mk (s.toList.map Char.toLower)

/-- Embeds `s.trim()` of JavaScript strings. -/
def jsTrim (s : String) : String :=
  String.mk (((s.toList.dropWhile Char.isWhitespace).reverse.dropWhile
    Char.isWhitespace).reverse)

/-- Embeds `String.prototype.split` on a one-character separator: every occurrence
separates, adjacent separators yield empty fields, and the empty string
splits to `[""]`. -/
def jsSplitChars (sep : Char) : List Char → List (List Char)
  | [] => [[]]
  | c :: rest =>
    let r := jsSplitChars sep rest
    if c = sep then [] :: r
    else
      match r with
      | h :: t => (c :: h) :: t
      | [] => [[c]]

/-- Embeds `s.split(sep)` of JavaScript strings, single-character separator. -/
def jsSplit (s : String) (sep : Char) : List String :=
  (jsSplitChars sep s.toList).map String.mk

/-- Embeds `detectPreferredFormat(userQuery)`. -/
def detectPreferredFormat (userQuery : String) : String :=
  if jsIncludes userQuery "code" || jsIncludes userQuery "example" then "code"
  else if jsIncludes userQuery "list" || jsIncludes userQuery "bullet" then "structured"
  else if jsIncludes userQuery "explain" || jsIncludes userQuery "how" then "markdown"
  else "text"

/-- Embeds `detectIntent(query)`. -/
def detectIntent (query : String) : String :=
  if jsIncludes query "context" || jsIncludes query "layer" then "context-engineering"
  else if jsIncludes query "file" || jsIncludes query "upload" then "file-processing"
  else if jsIncludes query "explain" || jsIncludes query "how" then "explanation"
  else if jsIncludes query "help" then "assistance"
  else "general"

/-- Embeds `extractEntities(query)`. -/
def extractEntities (query : String) : List String :=
  (if jsIncludes query "context" then ["context"] else [])
    ++ (if jsIncludes query "memory" then ["memory"] else [])
    ++ (if jsIncludes query "file" then ["file"] else [])

/-- Embeds `assessComplexity(query)`: word count from `query.split(' ')`. -/
def assessComplexity (query : String) : Complexity :=
  let wordCount := (jsSplit query ' ').length
  if wordCount < 5 then .simple
  else if wordCount < 20 then .medium
  else .complex

/-- Embeds `analyzeQuery(userQuery)` (without the timestamp, added by the layer). -/
def analyzeQuery (userQuery : String) : QueryData :=
  { original := userQuery
    processed := jsTrim (jsToLower userQuery)
    intent := detectIntent userQuery
    entities := extractEntities userQuery
    complexity := assessComplexity userQuery
    requiresFiles := jsIncludes userQuery "file" || jsIncludes userQuery "upload"
    expectedResponseType := detectPreferredFormat userQuery
    timestamp := "" }

/-- Embeds `getUserPreferences()`: DB row parsed, `{}` on missing row or error. -/
def getUserPreferences (env : EngineEnv) : UserPrefs :=
  match env.userPrefs with
  | .ok p => p
  | .error _ => {}

/-- Embeds `getSessionStats()`: the stats row, or the zero default on error. -/
def getSessionStats (env : EngineEnv) : SessionStats :=
  match env.sessionStats with
  | .ok s => s
  | .error _ => { messageCount := 0, lastActivity := none }

/-- Embeds `getRecentInteractions()`: last five messages, `[]` on error. -/
def getRecentInteractions (env : EngineEnv) : List Interaction :=
  match env.recentInteractions with
  | .ok l => l
  | .error _ => []

/-- Embeds `retrieveRelevantDocuments(query)`: the source is an explicit stub that
always returns the empty list ("For now, return empty array"). -/
def retrieveRelevantDocuments (_query : String) : List RetrievedDoc := []

/-- Embeds `getFileContext(fileIds)`: `[]` for no ids, DB rows otherwise, `[]` on
a thrown DB error. -/
def getFileContext (env : EngineEnv) (fileIds : List String) : List FileRow :=
  match fileIds with
  | [] => []
  | _ =>
    match env.fileRows fileIds with
    | .ok rows => rows
    | .error _ => []

/-- Embeds `getDomainExpertise(query)`: constant in the source. -/
def getDomainExpertise (_query : String) : DomainExpertise :=
  { domain := "context-engineering", confidence := 8/10 }

/-- Embeds `getTotalDocumentCount()`: DB count, `0` on error. -/
def getTotalDocumentCount (env : EngineEnv) : Nat :=
  match env.totalDocCount with
  | .ok n => n
  | .error _ => 0

/-- Embeds `getLastIndexUpdate()`: the current timestamp. -/
def getLastIndexUpdate (env : EngineEnv) : String := env.now

/-- Embeds `getCurrentTasks()`: stub, always `[]`. -/
def getCurrentTasks (_env : EngineEnv) : List TaskRow := []

/-- Embeds `getWorkflowState()`: stub, `{ state: 'idle' }`. -/
def getWorkflowState (_env : EngineEnv) : String := "idle"

/-- Embeds `calculateTaskProgress(tasks)`: stub, always `0`. -/
def calculateTaskProgress (_tasks : List TaskRow) : ℚ := 0

/-- Embeds `getActiveGoals()`: stub, always `[]`. -/
def getActiveGoals (_env : EngineEnv) : List String := []

/-- Embeds `getShortTermMemory()`: stub, always `[]`. -/
def getShortTermMemory (_env : EngineEnv) : List MemoryRecord := []

/-- Embeds `getMediumTermMemory()`: stub, always `[]`. -/
def getMediumTermMemory (_env : EngineEnv) : List MemoryRecord := []

/-- Embeds `searchLongTermMemory(query, limit = 10)`: stub, always `[]`. -/
def searchLongTermMemory (_query : String) (_limit : Nat) : List MemoryRecord := []

/-- Embeds `getLastToolUsage()`: stub, always `null`. -/
def getLastToolUsage (_env : EngineEnv) : Option String := none

/-- Embeds `getRelevantExamples(query)`: stub, always `[]`. -/
def getRelevantExamples (_query : String) : List ExampleItem := []

/-- Embeds `getFewShotExamples(query)`: stub, always `[]`. -/
def getFewShotExamples (_query : String) : List ExampleItem := []

/-- Embeds `getSessionStart()`: the current timestamp. -/
def getSessionStart (env : EngineEnv) : String := env.now

/-- Embeds `getLastInteraction()`: stub, always `null`. -/
def getLastInteraction (_env : EngineEnv) : Option String := none

/-- Embeds `getContextSwitches()`: stub, always `0`. -/
def getContextSwitches (_env : EngineEnv) : Nat := 0

/-- Embeds `Math.min` on two rationals. -/
def mathMin (q1 q2 : ℚ) : ℚ := if q1 ≤ q2 then q1 else q2

/-- Weight a layer's relevance receives in the aggregate:
`1` when `active`, `0.1` otherwise (the source's ternary). -/
def activeWeight (st : LayerStatus) : ℚ :=
  if st = .active then 1 else 1/10

/-- Embeds `calculateRelevanceScore(layers, userQuery)`:
`Math.min(weightedScore / layers.length, 1.0)` with
`weightedScore = layers.reduce((sum, l) => sum + l.relevanceScore * (l.status === 'active' ? 1 : 0.1), 0)`. -/
def calculateRelevanceScore (layers : List ContextLayer) (_userQuery : String) : ℚ :=
  let weightedScore :=
    layers.foldl (fun sum layer => sum + layer.relevanceScore * activeWeight layer.status) 0
  mathMin (weightedScore / (layers.length : ℚ)) 1

/-- Embeds `buildInstructionsLayer()`: constant payload, always active, score 1. -/
def buildInstructionsLayer (_env : EngineEnv) : ContextLayer :=
  let instructions : InstructionsData :=
    { constitution := "You are ContextLinc, a next-generation context-aware AI assistant built on the 11-layer Context Window Architecture. You specialize in context engineering and multi-modal processing."
      persona := "Expert AI assistant with deep understanding of context engineering, multi-modal processing, and intelligent conversation management."
      goals :=
        [ "Provide contextually relevant and accurate responses"
        , "Demonstrate sophisticated context awareness"
        , "Help users understand context engineering principles"
        , "Process and analyze multi-modal content effectively" ]
      ethicalBoundaries :=
        [ "Maintain user privacy and data security"
        , "Provide truthful and accurate information"
        , "Respect intellectual property rights"
        , "Avoid harmful or inappropriate content" ]
      capabilities :=
        [ "Multi-modal file processing (documents, images, videos, audio)"
        , "11-layer context window architecture"
        , "Three-tier memory system"
        , "Dynamic context optimization"
        , "Real-time conversation analysis" ] }
  { id := 1
    name := "Instructions"
    status := .active
    data := .instructions instructions
    tokenCount := estimateTokensLen (LayerData.instructions instructions).serLen
    relevanceScore := 1 }

/-- Embeds `buildUserInfoLayer()`: preferences, stats and recent interactions from
the database; always active, score 0.8. -/
def buildUserInfoLayer (env : EngineEnv) : ContextLayer :=
  let userPrefs := getUserPreferences env
  let sessionStats := getSessionStats env
  let userInfo : UserInfoData :=
    { userId := env.userId
      sessionId := env.sessionId
      preferences := userPrefs
      sessionStats := sessionStats
      interactionHistory := getRecentInteractions env
      personalization :=
        { responseStyle := userPrefs.responseStyle.getD "balanced"
          detailLevel := userPrefs.detailLevel.getD "medium"
          preferredFormats := userPrefs.preferredFormats.getD ["text"] } }
  { id := 2
    name := "User Info"
    status := .active
    data := .userInfo userInfo
    tokenCount := estimateTokensLen (LayerData.userInfo userInfo).serLen
    relevanceScore := 8/10 }

/-- Embeds `buildKnowledgeLayer(userQuery, files)`: active iff retrieval returned a
document or files were attached; score 0.9 when active, 0.1 otherwise. -/
def buildKnowledgeLayer (env : EngineEnv) (userQuery : String) (files : List String) : ContextLayer :=
  let retrievedDocs := retrieveRelevantDocuments userQuery
  let fileContext := getFileContext env files
  let domainExpertise := getDomainExpertise userQuery
  let knowledge : KnowledgeData :=
    { retrievedDocuments := retrievedDocs
      fileContext := fileContext
      domainExpertise := domainExpertise
      embeddingMatches := retrievedDocs.length
      totalDocuments := getTotalDocumentCount env
      lastIndexUpdate := getLastIndexUpdate env }
  let isActive := retrievedDocs.length > 0 || files.length > 0
  { id := 3
    name := "Knowledge"
    status := if isActive then .active else .inactive
    data := .knowledge knowledge
    tokenCount := estimateTokensLen (LayerData.knowledge knowledge).serLen
    relevanceScore := if isActive then 9/10 else 1/10 }

/-- Embeds `buildTaskGoalState()`: active iff there are current tasks; score 0.8
when active, 0.2 otherwise. -/
def buildTaskGoalState (env : EngineEnv) : ContextLayer :=
  let currentTasks := getCurrentTasks env
  let taskState : TaskStateData :=
    { currentTask := currentTasks.head?
      activeTasks := currentTasks
      workflowState := getWorkflowState env
      progress := calculateTaskProgress currentTasks
      goals := getActiveGoals env }
  let isActive := currentTasks.length > 0
  { id := 4
    name := "Task/Goal State"
    status := if isActive then .active else .inactive
    data := .taskState taskState
    tokenCount := estimateTokensLen (LayerData.taskState taskState).serLen
    relevanceScore := if isActive then 8/10 else 2/10 }

/-- Embeds `buildMemoryLayer(userQuery)`: aggregates the three tiers; always
active, score 0.7. -/
def buildMemoryLayer (env : EngineEnv) (userQuery : String) : ContextLayer :=
  let shortTermMemory := getShortTermMemory env
  let mediumTermMemory := getMediumTermMemory env
  let longTermMemory := searchLongTermMemory userQuery 10
  let memory : MemoryData :=
    { shortTermItems := shortTermMemory
      shortCapacity := 10
      shortRetention := "1 hour"
      mediumTermItems := mediumTermMemory
      mediumCapacity := 100
      mediumRetention := "1 session"
      longTermItems := longTermMemory
      longCapacity := "unlimited"
      longRetention := "persistent"
      totalItems := shortTermMemory.length + mediumTermMemory.length + longTermMemory.length }
  { id := 5
    name := "Memory"
    status := .active
    data := .memory memory
    tokenCount := estimateTokensLen (LayerData.memory memory).serLen
    relevanceScore := 7/10 }

/-- The constant tool catalog of `buildToolsLayer()`. -/
def availableTools : List ToolInfo :=
  [ { name := "File Processor"
    , description := "Multi-modal file processing and analysis"
    , status := "available"
    , capabilities := ["document parsing", "image analysis", "video processing", "audio transcription"] }
  , { name := "Context Optimizer"
    , description := "Dynamic context compression and optimization"
    , status := "available"
    , capabilities := ["context pruning", "relevance scoring", "token optimization"] }
  , { name := "Memory Manager"
    , description := "Three-tier memory system management"
    , status := "available"
    , capabilities := ["memory storage", "semantic search", "memory consolidation"] }
  , { name := "Embedding Generator"
    , description := "Generate and manage embeddings for content"
    , status := "available"
    , capabilities := ["text embeddings", "image embeddings", "multimodal embeddings"] } ]

/-- Embeds `buildToolsLayer()`: constant catalog, always inactive, score 0.3. -/
def buildToolsLayer (env : EngineEnv) : ContextLayer :=
  let tools : ToolsData :=
    { available := availableTools
      active := []
      totalTools := availableTools.length
      lastUsed := getLastToolUsage env }
  { id := 6
    name := "Tools"
    status := .inactive
    data := .tools tools
    tokenCount := estimateTokensLen (LayerData.tools tools).serLen
    relevanceScore := 3/10 }

/-- Embeds `buildExamplesLayer(userQuery)`: active iff any example matched; score
0.6 when active, 0.1 otherwise. -/
def buildExamplesLayer (_env : EngineEnv) (userQuery : String) : ContextLayer :=
  let relevantExamples := getRelevantExamples userQuery
  let fewShotExamples := getFewShotExamples userQuery
  let examples : ExamplesData :=
    { fewShot := fewShotExamples
      relevant := relevantExamples
      total := fewShotExamples.length + relevantExamples.length
      categories := ["context-engineering", "multi-modal", "conversation"] }
  let isActive := examples.total > 0
  { id := 7
    name := "Examples"
    status := if isActive then .active else .inactive
    data := .examples examples
    tokenCount := estimateTokensLen (LayerData.examples examples).serLen
    relevanceScore := if isActive then 6/10 else 1/10 }

/-- Embeds `buildContextLayer()`: conversation context; always active, score 0.9. -/
def buildContextLayer (env : EngineEnv) : ContextLayer :=
  let context : ConversationData :=
    { sessionStart := getSessionStart env
      lastInteraction := getLastInteraction env
      contextSwitches := getContextSwitches env }
  { id := 8
    name := "Context"
    status := .active
    data := .conversation context
    tokenCount := estimateTokensLen (LayerData.conversation context).serLen
    relevanceScore := 9/10 }

/-- Embeds `buildConstraintsLayer()`: constant payload, always active, score 0.5. -/
def buildConstraintsLayer (_env : EngineEnv) : ContextLayer :=
  let constraints : ConstraintsData :=
    { maxTokens := 4096
      responseTimeLimit := "30s"
      concurrentRequests := 10
      fileSizeLimit := "50MB"
      contentFiltering := true
      privacyProtection := true
      harmfulContentDetection := true
      copyrightRespect := true
      minConfidenceThreshold := 7/10
      factualAccuracy := true
      citationRequired := true
      biasDetection := true }
  { id := 9
    name := "Constraints"
    status := .active
    data := .constraints constraints
    tokenCount := estimateTokensLen (LayerData.constraints constraints).serLen
    relevanceScore := 5/10 }

/-- Embeds `buildOutputFormatLayer(userQuery)`: always active, score 0.6. -/
def buildOutputFormatLayer (_env : EngineEnv) (userQuery : String) : ContextLayer :=
  let detectedFormat := detectPreferredFormat userQuery
  let outputFormat : OutputFormatData :=
    { preferredFormat := detectedFormat
      supportedFormats := ["text", "markdown", "json", "code", "structured"]
      includeConfidence := true
      includeSources := true
      includeTimestamp := true
      includeContext := false
      style := { tone := "professional", detail := "comprehensive", examples := true } }
  { id := 10
    name := "Output Format"
    status := .active
    data := .outputFormat outputFormat
    tokenCount := estimateTokensLen (LayerData.outputFormat outputFormat).serLen
    relevanceScore := 6/10 }

/-- Embeds `buildUserQueryLayer(userQuery)`: query analysis; always active, score 1. -/
def buildUserQueryLayer (env : EngineEnv) (userQuery : String) : ContextLayer :=
  let queryAnalysis := analyzeQuery userQuery
  let query : QueryData := { queryAnalysis with timestamp := env.now }
  { id := 11
    name := "User Query"
    status := .active
    data := .userQuery query
    tokenCount := estimateTokensLen (LayerData.userQuery query).serLen
    relevanceScore := 1 }

/-- Embeds `buildContextWindow(userQuery, files = [])`: pushes the 11 layers in
order 1..11, sums their token counts, collects active ids and computes the
aggregate relevance. -/
def buildContextWindow (env : EngineEnv) (userQuery : String) (files : List String) : ContextWindow :=
  let layers : List ContextLayer :=
    [ buildInstructionsLayer env
    , buildUserInfoLayer env
    , buildKnowledgeLayer env userQuery files
    , buildTaskGoalState env
    , buildMemoryLayer env userQuery
    , buildToolsLayer env
    , buildExamplesLayer env userQuery
    , buildContextLayer env
    , buildConstraintsLayer env
    , buildOutputFormatLayer env userQuery
    , buildUserQueryLayer env userQuery ]
  let totalTokens := (layers.map ContextLayer.tokenCount).sum
  let activeLayers := (layers.filter (fun l => l.status = .active)).map ContextLayer.id
  let relevanceScore := calculateRelevanceScore layers userQuery
  { layers := layers
    activeLayers := activeLayers
    relevanceScore := relevanceScore
    tokenCount := totalTokens
    lastUpdate := env.now }

/-- Core fields of a backend reply used by the gateway (`content`, `model`). -/
structure AIResponseCore where
  content : String
  model : String
deriving DecidableEq, Repr

/-- The gateway's final reply (`interface AIResponse`, fields the claims
touch: content, model and the computed confidence). -/
structure AIResponse where
  content : String
  model : String
  confidence : ℚ
deriving DecidableEq, Repr

/-- Embeds `calculateConfidence(response, contextWindow)`: base 0.5, plus
`relevanceScore * 0.3`, plus `(activeLayers/11) * 0.2`, plus length and
model-tier bonuses, clamped by `Math.min(confidence, 1.0)`. -/
def calculateConfidence (response : AIResponseCore) (contextWindow : ContextWindow) : ℚ :=
  let confidence : ℚ := 1/2
  let confidence := confidence + contextWindow.relevanceScore * (3/10)
  let confidence := confidence + ((contextWindow.activeLayers.length : ℚ) / 11) * (2/10)
  let confidence := confidence + (if response.content.length > 500 then 1/10 else 0)
  let confidence := confidence + (if response.content.length > 1000 then 1/10 else 0)
  let confidence := confidence + (if jsIncludes response.model "gpt-4" then 1/10 else 0)
  let confidence := confidence + (if jsIncludes response.model "claude-3" then 1/10 else 0)
  mathMin confidence 1

/-- Outcome of each generation backend call during one request:
`callOpenAI` / `callAnthropic` either return a reply or throw the error
message built from the HTTP status. -/
structure BackendEnv where
  openaiResult : Except String AIResponseCore
  anthropicResult : Except String AIResponseCore

/-- Embeds `generateResponse(contextWindow, options)`: defaults the model to
`gpt-4`, routes on the model-name family, throws `Unsupported model` for
any other name, and wraps every thrown error as `AI generation failed:`.
On success the confidence is recomputed by `calculateConfidence`. -/
def generateResponse (backends : BackendEnv) (contextWindow : ContextWindow)
    (optionsModel : Option String) : Except String AIResponse :=
  let model := optionsModel.getD "gpt-4"
  let routed : Except String AIResponseCore :=
    if jsStartsWith model "gpt-" then backends.openaiResult
    else if jsStartsWith model "claude-" then backends.anthropicResult
    else .error ("Unsupported model: " ++ model)
  match routed with
  | .ok r =>
      .ok { content := r.content
            model := r.model
            confidence := calculateConfidence r contextWindow }
  | .error e => .error ("AI generation failed: " ++ e)

/-- Embeds `AIService.generateEmbedding(text)`: tries Voyage, and on any failure
falls back to `generateOpenAIEmbedding`, whose own failure propagates.
Arguments are the two provider outcomes for the given text. -/
def generateEmbeddingAI (voyage openai : Except String (List ℚ)) : Except String (List ℚ) :=
  match voyage with
  | .ok v => .ok v
  | .error _ => openai

/-- Auxiliary for `cleanTextForEmbedding`: collapse whitespace runs to one
space (`text.replace(/\s+/g, ' ')`); the flag records whether the previous
character was whitespace. -/
def collapseWsAux : Bool → List Char → List Char
  | _, [] => []
  | prevWs, c :: rest =>
    if c.isWhitespace then
      if prevWs then collapseWsAux true rest
      else ' ' :: collapseWsAux true rest
    else c :: collapseWsAux false rest

/-- Embeds `cleanTextForEmbedding(text)`: collapse whitespace and trim, strip
control characters `[\x00-\x1F\x7F]`, truncate to 8000 characters. -/
def cleanTextForEmbedding (text : String) : String :=
  let cleaned := jsTrim (String.mk (collapseWsAux false text.toList))
  let cleaned := String.mk (cleaned.toList.filter (fun c => !(c.toNat ≤ 31 || c.toNat == 127)))
  if cleaned.length > 8000 then String.mk (cleaned.toList.take 8000) else cleaned

/-- Outcomes of the two embedding providers, as functions of the text each
one is actually called with. -/
structure EmbedEnv where
  voyage : String → Except String (List ℚ)
  openai : String → Except String (List ℚ)

/-- Embeds `EmbeddingService.generateSingleEmbedding(text)`: clean the text, try
Voyage, fall back to OpenAI once, and throw
`All embedding services unavailable` only when both fail. -/
def generateSingleEmbedding (env : EmbedEnv) (text : String) : Except String (List ℚ) :=
  let cleanText := cleanTextForEmbedding text
  match env.voyage cleanText with
  | .ok v => .ok v
  | .error _ =>
    match env.openai cleanText with
    | .ok v => .ok v
    | .error _ => .error "All embedding services unavailable"

/-- Embeds `searchShortTermMemory(query, limit)`: stub, always `[]`. -/
def searchShortTermMemory (_query : String) (_limit : Nat) : List MemoryRecord := []

/-- Embeds `searchMediumTermMemory(query, limit)`: stub, always `[]`. -/
def searchMediumTermMemory (_query : String) (_limit : Nat) : List MemoryRecord := []

/-- Embeds `searchAllMemory(query, limit)`: stub, always `[]`. -/
def searchAllMemory (_query : String) (_limit : Nat) : List MemoryRecord := []

/-- Embeds `searchMemory(query, memoryType, limit)`: dispatch on the tier name. -/
def searchMemory (query : String) (memoryType : String) (limit : Nat) : List MemoryRecord :=
  if memoryType = "short" then searchShortTermMemory query limit
  else if memoryType = "medium" then searchMediumTermMemory query limit
  else if memoryType = "long" then searchLongTermMemory query limit
  else searchAllMemory query limit

/-- A row of the vector search of `EmbeddingService.searchSimilarEmbeddings`. -/
structure EmbeddingMatch where
  contentId : String
  similarity : ℚ
deriving DecidableEq, Repr

/-- Embeds `EmbeddingService.searchSimilarEmbeddings(queryEmbedding, userId,
limit = 10, threshold = 0.7)`: placeholder implementation, always `[]`. -/
def searchSimilarEmbeddings (_queryEmbedding : List ℚ) (_userId : String)
    (_limit : Nat) (_threshold : ℚ) : List EmbeddingMatch := []

/-- Fields the `/optimize` route reads off `optimizeContext`'s result; the
stub sets none of them (`undefined` in JavaScript). -/
structure OptimizationResult where
  originalSize : Option Nat := none
  optimizedSize : Option Nat := none
  compressionRatio : Option ℚ := none
  layersAffected : Option (List Nat) := none
  preservedContent : Option (List Nat) := none
deriving DecidableEq, Repr

/-- Embeds `optimizeContext(targetSize, preserveLayers)`: the source is the stub
`{ return {}; }` — no compression, no error. -/
def optimizeContext (_targetSize : Int) (_preserveLayers : List Nat) : OptimizationResult := {}

/-- Outcome of the `POST /optimize` route handler. -/
inductive OptimizeRouteResult where
  | ok (body : OptimizationResult)
  | serverError (msg : String)
deriving DecidableEq, Repr

/-- Embeds `POST /optimize`: calls `optimizeContext` and replies
`success: true` with the (absent) optimization fields; the catch branch
(500) is unreachable because the stub never throws. -/
def optimizeRoute (targetSize : Int) (preserveLayers : List Nat) : OptimizeRouteResult :=
  .ok (optimizeContext targetSize preserveLayers)

/-- A JavaScript number as produced by `parseInt`: either an integer or
`NaN` (every comparison with `NaN` is false). -/
inductive JSNum where
  | nan
  | int (v : Int)
deriving DecidableEq, Repr

/-- Embeds `parseInt(s)` (radix 10): skip whitespace and an optional sign, read
leading decimal digits, `NaN` when there are none. -/
def parseIntJS (s : String) : JSNum :=
  let t := s.toList.dropWhile Char.isWhitespace
  let signAndRest : Int × List Char :=
    match t with
    | '-' :: cs => (-1, cs)
    | '+' :: cs => (1, cs)
    | cs => (1, cs)
  let digits := signAndRest.2.takeWhile Char.isDigit
  if digits.isEmpty then .nan
  else .int (signAndRest.1 * ((digits.foldl (fun acc c => acc * 10 + (c.toNat - 48)) 0 : Nat) : Int))

/-- JavaScript `a < b` for a parsed number against an integer literal. -/
def jsLtNum (a : JSNum) (b : Int) : Bool :=
  match a with
  | .nan => false
  | .int v => v < b

/-- JavaScript `a > b` for a parsed number against an integer literal. -/
def jsGtNum (a : JSNum) (b : Int) : Bool :=
  match a with
  | .nan => false
  | .int v => v > b

/-- Outcome of the layer route handlers: either the 400 rejection or the
handler proceeding into the engine with the parsed id. -/
inductive LayerRouteResult where
  | badRequest (msg : String)
  | proceeded (layerId : JSNum)
deriving DecidableEq, Repr

/-- Embeds `GET /layers/:layerId`: parse the path parameter, reject ids outside
1..11 with `Invalid layer ID (1-11)`, otherwise call
`getLayerData(layerId)`. -/
def getLayerRoute (layerIdParam : String) : LayerRouteResult :=
  let layerId := parseIntJS layerIdParam
  if jsLtNum layerId 1 || jsGtNum layerId 11 then
    .badRequest "Invalid layer ID (1-11)"
  else
    .proceeded layerId

/-- Embeds `PUT /layers/:layerId`: same guard as the GET route, then
`updateLayerConfig(layerId, updates)`. -/
def putLayerRoute (layerIdParam : String) : LayerRouteResult :=
  let layerId := parseIntJS layerIdParam
  if jsLtNum layerId 1 || jsGtNum layerId 11 then
    .badRequest "Invalid layer ID (1-11)"
  else
    .proceeded layerId

/-- Complexity recorded in a User Query layer's payload, if it is one. -/
def ContextLayer.queryComplexity (l : ContextLayer) : Option Complexity :=
  match l.data with
  | .userQuery d => some d.complexity
  | _ => none

/-- The three memory-tier item lists of a Memory layer's payload. -/
def ContextLayer.memoryTiers (l : ContextLayer) :
    Option (List MemoryRecord × List MemoryRecord × List MemoryRecord) :=
  match l.data with
  | .memory d => some (d.shortTermItems, d.mediumTermItems, d.longTermItems)
  | _ => none

/-- Environment of a fresh session: empty history, empty preferences, no
uploaded files, all database reads succeeding with empty results. -/
def emptyEnv : EngineEnv :=
  { userId := "user-1"
    sessionId := "session-1"
    userPrefs := .ok {}
    sessionStats := .ok { messageCount := 0, lastActivity := none }
    recentInteractions := .ok []
    fileRows := fun _ => .ok []
    totalDocCount := .ok 0
    now := "2026-01-01T00:00:00.000Z" }

/-- A concrete layer used to instantiate list-level lemmas. -/
def sampleLayer : ContextLayer :=
  { id := 4
    name := "Task/Goal State"
    status := .active
    data := .taskState
      { currentTask := none, activeTasks := [], workflowState := "idle"
        progress := 0, goals := [] }
    tokenCount := 0
    relevanceScore := 1/2 }

/-- Eleven concrete layers. -/
def sampleLayers : List ContextLayer := List.replicate 11 sampleLayer

/-- Concrete provider outcomes: Voyage down, OpenAI answering. -/
def embedEnvSample : EmbedEnv :=
  { voyage := fun _ => .error "Voyage API error 500: down"
    openai := fun _ => .ok [1] }

/-- A concrete context window used to instantiate gateway lemmas. -/
def sampleWindow : ContextWindow :=
  { layers := []
    activeLayers := []
    relevanceScore := 1/2
    tokenCount := 0
    lastUpdate := "2026-01-01T00:00:00.000Z" }

/-- A concrete backend reply used to instantiate gateway lemmas. -/
def sampleResponse : AIResponseCore :=
  { content := "hello", model := "gpt-4" }

/-- C1: for every environment (however the database reads turn out), query
and attached-file list, `buildContextWindow` returns exactly 11 layers with
ids 1..11 in that fixed order. -/
theorem buildContextWindow_eleven_layers (env : EngineEnv) (q : String) (fs : List String) :
    ((buildContextWindow env q fs).layers.map ContextLayer.id)
        = [1, 2, 3, 4, 5, 6, 7, 8, 9, 10, 11]
      ∧ (buildContextWindow env q fs).layers.length = 11 := by
  constructor <;> rfl

/-- C2 (code evaluation): `optimizeContext` is the stub `return {}` — for
every requested budget the `/optimize` route replies success with none of
the optimization fields set, and no error of any kind is raised; in
particular at `targetSize = 50` nothing enforces a 50-token budget. -/
theorem optimizeRoute_stub_no_budget_enforcement :
    optimizeRoute 50 []
        = .ok { originalSize := none, optimizedSize := none, compressionRatio := none
                layersAffected := none, preservedContent := none }
      ∧ ∀ (targetSize : Int) (preserveLayers : List Nat),
          optimizeRoute targetSize preserveLayers = .ok {} := by
  exact ⟨rfl, fun _ _ => rfl⟩

/-- C5 (code evaluation): long-term memory search is a placeholder that
returns `[]` for every query, so a stored long-tier item is never returned
when searched with its own content; the vector search of the embedding
service is likewise the constant `[]`. -/
theorem searchLongTermMemory_stub_returns_nothing :
    searchMemory "hello world" "long" 10 = []
      ∧ (∀ (q : String) (limit : Nat), searchLongTermMemory q limit = [])
      ∧ searchSimilarEmbeddings [1] "user-1" 10 (7/10) = [] := by
  exact ⟨rfl, fun _ _ => rfl, rfl⟩

/-- C10: for the non-numeric path parameter `abc`, `parseInt` yields `NaN`,
which satisfies neither `layerId < 1` nor `layerId > 11`, so both the GET
and the PUT layer routes skip the 400 rejection and proceed into the engine
with `NaN`. -/
theorem layerRoutes_nan_bypasses_validation :
    getLayerRoute "abc" = .proceeded .nan
      ∧ putLayerRoute "abc" = .proceeded .nan
      ∧ getLayerRoute "abc" ≠ .badRequest "Invalid layer ID (1-11)"
      ∧ putLayerRoute "abc" ≠ .badRequest "Invalid layer ID (1-11)" := by
  refine ⟨rfl, rfl, ?_, ?_⟩ <;> decide

/-- The aggregate weight of an `active` layer is `1`. -/
theorem activeWeight_active : activeWeight .active = 1 := rfl

/-- The aggregate weight of an `inactive` layer is `0.1`. -/
theorem activeWeight_inactive : activeWeight .inactive = 1/10 := by
  simp [activeWeight]

/-- The reducer of `calculateRelevanceScore` is the list sum of the
per-layer weighted relevances. -/
theorem relevance_foldl_eq (layers : List ContextLayer) (a : ℚ) :
    layers.foldl (fun sum layer => sum + layer.relevanceScore * activeWeight layer.status) a
      = a + (layers.map (fun l => l.relevanceScore * activeWeight l.status)).sum := by
  induction layers generalizing a with
  | nil => simp
  | cons hd tl ih => rw [List.foldl_cons, ih, List.map_cons, List.sum_cons]; ring

/-- C3: for every 11-layer list whose per-layer relevances lie in [0,1],
`calculateRelevanceScore` equals the sum of `relevanceScore * activeWeight`
over the layers divided by 11, and the result lies in [0,1]. -/
theorem calculateRelevanceScore_weighted_average (layers : List ContextLayer) (q : String)
    (h11 : layers.length = 11)
    (hrel : ∀ l ∈ layers, 0 ≤ l.relevanceScore ∧ l.relevanceScore ≤ 1) :
    calculateRelevanceScore layers q
        = (layers.map (fun l => l.relevanceScore * activeWeight l.status)).sum / 11
      ∧ 0 ≤ calculateRelevanceScore layers q
      ∧ calculateRelevanceScore layers q ≤ 1 := by
  have hterm : ∀ x ∈ layers.map (fun l => l.relevanceScore * activeWeight l.status),
      0 ≤ x ∧ x ≤ 1 := by
    intro x hx
    obtain ⟨l, hl, rfl⟩ := List.mem_map.mp hx
    obtain ⟨h0, h1⟩ := hrel l hl
    have hw0 : 0 ≤ activeWeight l.status := by unfold activeWeight; split <;> norm_num
    have hw1 : activeWeight l.status ≤ 1 := by unfold activeWeight; split <;> norm_num
    refine ⟨mul_nonneg h0 hw0, ?_⟩
    calc l.relevanceScore * activeWeight l.status ≤ 1 * 1 :=
          mul_le_mul h1 hw1 hw0 (by norm_num)
      _ = 1 := by norm_num
  have hsum0 : 0 ≤ (layers.map (fun l => l.relevanceScore * activeWeight l.status)).sum :=
    List.sum_nonneg (fun x hx => (hterm x hx).1)
  have hsum1 : (layers.map (fun l => l.relevanceScore * activeWeight l.status)).sum ≤ 11 := by
    have h := List.sum_le_card_nsmul
      (layers.map (fun l => l.relevanceScore * activeWeight l.status)) 1
      (fun x hx => (hterm x hx).2)
    rw [List.length_map, h11] at h
    simpa using h
  have hdiv1 : (layers.map (fun l => l.relevanceScore * activeWeight l.status)).sum / 11 ≤ 1 := by
    rw [div_le_one (by norm_num : (0:ℚ) < 11)]; exact hsum1
  have heq : calculateRelevanceScore layers q
      = (layers.map (fun l => l.relevanceScore * activeWeight l.status)).sum / 11 := by
    unfold calculateRelevanceScore mathMin
    rw [relevance_foldl_eq, zero_add, h11]
    norm_num [hdiv1]
  refine ⟨heq, ?_, ?_⟩
  · rw [heq]; positivity
  · rw [heq]; exact hdiv1

/-- Witness for C3 at a concrete 11-layer list. -/
theorem calculateRelevanceScore_weighted_average_witness :
    calculateRelevanceScore sampleLayers "hey"
        = (sampleLayers.map (fun l => l.relevanceScore * activeWeight l.status)).sum / 11
      ∧ 0 ≤ calculateRelevanceScore sampleLayers "hey"
      ∧ calculateRelevanceScore sampleLayers "hey" ≤ 1 :=
  calculateRelevanceScore_weighted_average sampleLayers "hey"
    (by simp [sampleLayers])
    (by
      intro l hl
      have hls : l = sampleLayer := by simpa [sampleLayers] using hl
      rw [hls]
      norm_num [sampleLayer])

/-- C4 counterexample: for the fresh session and the two-word query `hi`,
the aggregate relevance `buildContextWindow` computes is `557/1100`
(about 0.506), which is NOT strictly less than 0.5 as claimed. -/
theorem simpleQuery_relevance_not_below_half :
    (buildContextWindow emptyEnv "hi" []).relevanceScore = 557/1100
      ∧ ¬ ((buildContextWindow emptyEnv "hi" []).relevanceScore < 1/2) := by
  have h : (buildContextWindow emptyEnv "hi" []).relevanceScore = 557/1100 := by
    norm_num [buildContextWindow, calculateRelevanceScore, mathMin,
      activeWeight_active, activeWeight_inactive,
      buildInstructionsLayer, buildUserInfoLayer, buildKnowledgeLayer, buildTaskGoalState,
      buildMemoryLayer, buildToolsLayer, buildExamplesLayer, buildContextLayer,
      buildConstraintsLayer, buildOutputFormatLayer, buildUserQueryLayer,
      retrieveRelevantDocuments, getFileContext, getCurrentTasks, getShortTermMemory,
      getMediumTermMemory, searchLongTermMemory, getRelevantExamples, getFewShotExamples]
  refine ⟨h, ?_⟩
  rw [h]
  norm_num

/-- C4 (amended): for a session with empty history, no files and the query
`hi`, the UserQuery layer has complexity `simple`, the Knowledge layer is
`inactive`, the Memory layer is `active` with all three tiers empty, and
the aggregate relevanceScore equals `557/1100` (≈ 0.506, below 0.51 but not
below 0.5). -/
theorem simpleQuery_scenario_amended :
    ((buildContextWindow emptyEnv "hi" []).layers[10]?).map ContextLayer.queryComplexity
        = some (some .simple)
      ∧ ((buildContextWindow emptyEnv "hi" []).layers[2]?).map ContextLayer.status
        = some .inactive
      ∧ ((buildContextWindow emptyEnv "hi" []).layers[4]?).map ContextLayer.status
        = some .active
      ∧ ((buildContextWindow emptyEnv "hi" []).layers[4]?).map ContextLayer.memoryTiers
        = some (some ([], [], []))
      ∧ (buildContextWindow emptyEnv "hi" []).relevanceScore = 557/1100
      ∧ (buildContextWindow emptyEnv "hi" []).relevanceScore < 51/100 := by
  have h : (buildContextWindow emptyEnv "hi" []).relevanceScore = 557/1100 := by
    norm_num [buildContextWindow, calculateRelevanceScore, mathMin,
      activeWeight_active, activeWeight_inactive,
      buildInstructionsLayer, buildUserInfoLayer, buildKnowledgeLayer, buildTaskGoalState,
      buildMemoryLayer, buildToolsLayer, buildExamplesLayer, buildContextLayer,
      buildConstraintsLayer, buildOutputFormatLayer, buildUserQueryLayer,
      retrieveRelevantDocuments, getFileContext, getCurrentTasks, getShortTermMemory,
      getMediumTermMemory, searchLongTermMemory, getRelevantExamples, getFewShotExamples]
  refine ⟨?_, ?_, ?_, ?_, h, ?_⟩
  · simp [buildContextWindow, buildUserQueryLayer, analyzeQuery, assessComplexity, jsSplit,
      jsSplitChars, ContextLayer.queryComplexity]
  · simp [buildContextWindow, buildKnowledgeLayer, retrieveRelevantDocuments, getFileContext]
  · simp [buildContextWindow, buildMemoryLayer]
  · simp [buildContextWindow, buildMemoryLayer, getShortTermMemory, getMediumTermMemory,
      searchLongTermMemory, ContextLayer.memoryTiers]
  · rw [h]; norm_num

/-- C6: in every assembled window the third entry is the Knowledge layer,
its status is `active` exactly when retrieval returned at least one
document or files are attached, and its relevance is 0.9 when active and
0.1 when inactive. -/
theorem knowledgeLayer_active_iff_docs_or_files (env : EngineEnv) (q : String)
    (fs : List String) :
    ∃ kl, (buildContextWindow env q fs).layers[2]? = some kl
      ∧ kl.id = 3
      ∧ (kl.status = .active ↔
          ((retrieveRelevantDocuments q).length > 0 ∨ fs.length > 0))
      ∧ kl.relevanceScore = (if kl.status = .active then 9/10 else 1/10) := by
  refine ⟨buildKnowledgeLayer env q fs, rfl, rfl, ?_, ?_⟩
  · by_cases h : 0 < fs.length <;>
      simp [buildKnowledgeLayer, retrieveRelevantDocuments, h]
  · by_cases h : 0 < fs.length <;>
      simp [buildKnowledgeLayer, retrieveRelevantDocuments, h]

/-- C7: `generateResponse` routes `gpt-` models to the OpenAI call (the
Anthropic outcome is irrelevant) and `claude-` models to the Anthropic call
(the OpenAI outcome is irrelevant); a failure of the selected backend is
surfaced as an `AI generation failed` error with no fallback to the other
provider, and any model with neither family name yields the
`Unsupported model` error. -/
theorem generateResponse_backend_selection (oa oa2 an an2 : Except String AIResponseCore)
    (cw : ContextWindow) (m : String) :
    (jsStartsWith m "gpt-" = true →
        generateResponse ⟨oa, an⟩ cw (some m) = generateResponse ⟨oa, an2⟩ cw (some m)
      ∧ ∀ e, oa = .error e →
          generateResponse ⟨oa, an⟩ cw (some m) = .error ("AI generation failed: " ++ e))
    ∧ (jsStartsWith m "gpt-" = false → jsStartsWith m "claude-" = true →
        generateResponse ⟨oa, an⟩ cw (some m) = generateResponse ⟨oa2, an⟩ cw (some m)
      ∧ ∀ e, an = .error e →
          generateResponse ⟨oa, an⟩ cw (some m) = .error ("AI generation failed: " ++ e))
    ∧ (jsStartsWith m "gpt-" = false → jsStartsWith m "claude-" = false →
        generateResponse ⟨oa, an⟩ cw (some m)
          = .error ("AI generation failed: " ++ ("Unsupported model: " ++ m))) := by
  refine ⟨?_, ?_, ?_⟩
  · intro h
    exact ⟨by simp [generateResponse, h], fun e he => by simp [generateResponse, h, he]⟩
  · intro h1 h2
    exact ⟨by simp [generateResponse, h1, h2], fun e he => by simp [generateResponse, h1, h2, he]⟩
  · intro h1 h2
    simp [generateResponse, h1, h2]

/-- Witness for C7 at the concrete model name `mistral-7b`. -/
theorem generateResponse_backend_selection_witness :
    generateResponse ⟨.ok sampleResponse, .ok sampleResponse⟩ sampleWindow (some "mistral-7b")
      = .error ("AI generation failed: " ++ ("Unsupported model: " ++ "mistral-7b")) :=
  (generateResponse_backend_selection (.ok sampleResponse) (.ok sampleResponse)
    (.ok sampleResponse) (.ok sampleResponse) sampleWindow "mistral-7b").2.2 rfl rfl

/-- C8: embedding generation consults the primary provider (Voyage) first
and returns its vector on success; exactly when it fails, the secondary
provider (OpenAI) is consulted once, and an error reaches the caller only
when both providers fail.  Stated for `AIService.generateEmbedding` and for
`EmbeddingService.generateSingleEmbedding`. -/
theorem embedding_fallback_order (v o : Except String (List ℚ)) (env : EmbedEnv)
    (text : String) :
    (∀ x, v = .ok x → generateEmbeddingAI v o = .ok x)
    ∧ (∀ e, v = .error e → generateEmbeddingAI v o = o)
    ∧ ((∃ e, generateEmbeddingAI v o = .error e) ↔
        (∃ e, v = .error e) ∧ (∃ e, o = .error e))
    ∧ (∀ x, env.voyage (cleanTextForEmbedding text) = .ok x →
        generateSingleEmbedding env text = .ok x)
    ∧ (∀ e x, env.voyage (cleanTextForEmbedding text) = .error e →
        env.openai (cleanTextForEmbedding text) = .ok x →
        generateSingleEmbedding env text = .ok x)
    ∧ (∀ e e2, env.voyage (cleanTextForEmbedding text) = .error e →
        env.openai (cleanTextForEmbedding text) = .error e2 →
        generateSingleEmbedding env text = .error "All embedding services unavailable") := by
  refine ⟨?_, ?_, ?_, ?_, ?_, ?_⟩
  · intro x hx; simp [generateEmbeddingAI, hx]
  · intro e he; simp [generateEmbeddingAI, he]
  · cases v with
    | ok x => simp [generateEmbeddingAI]
    | error e =>
      cases o with
      | ok y => simp [generateEmbeddingAI]
      | error e2 => simp [generateEmbeddingAI]
  · intro x hx; simp [generateSingleEmbedding, hx]
  · intro e x he hx; simp [generateSingleEmbedding, he, hx]
  · intro e e2 he he2; simp [generateSingleEmbedding, he, he2]

/-- Witness for C8: Voyage down, OpenAI answering, the OpenAI vector is
returned by both embedding entry points. -/
theorem embedding_fallback_order_witness :
    generateEmbeddingAI (.error "Voyage API error 500: down") (.ok [1]) = .ok [1]
      ∧ generateSingleEmbedding embedEnvSample "hi" = .ok [1] :=
  ⟨(embedding_fallback_order (.error "Voyage API error 500: down") (.ok [1])
      embedEnvSample "hi").2.1 "Voyage API error 500: down" rfl,
   (embedding_fallback_order (.error "Voyage API error 500: down") (.ok [1])
      embedEnvSample "hi").2.2.2.2.1 "Voyage API error 500: down" [1] rfl rfl⟩

/-- C9: the confidence computed by `calculateConfidence` is the clamp to 1
of a sum of non-negative additive terms — base 0.5, relevance contribution,
active-layer fraction, response-length bonuses and model-tier bonuses — and
always lies in [0,1] (given the window's relevance lies in [0,1]). -/
theorem calculateConfidence_bounded_additive (response : AIResponseCore) (cw : ContextWindow)
    (h0 : 0 ≤ cw.relevanceScore) (h1 : cw.relevanceScore ≤ 1) :
    (∃ base relTerm layerTerm lenTerm modelTerm : ℚ,
        0 ≤ base ∧ 0 ≤ relTerm ∧ 0 ≤ layerTerm ∧ 0 ≤ lenTerm ∧ 0 ≤ modelTerm
      ∧ base = 1/2
      ∧ relTerm = cw.relevanceScore * (3/10)
      ∧ layerTerm = ((cw.activeLayers.length : ℚ) / 11) * (2/10)
      ∧ calculateConfidence response cw
          = mathMin (base + relTerm + layerTerm + lenTerm + modelTerm) 1)
    ∧ 0 ≤ calculateConfidence response cw
    ∧ calculateConfidence response cw ≤ 1 := by
  have hb : (0:ℚ) ≤ 1/2 := by norm_num
  have hr : 0 ≤ cw.relevanceScore * (3/10) := mul_nonneg h0 (by norm_num)
  have hl : 0 ≤ ((cw.activeLayers.length : ℚ) / 11) * (2/10) := by positivity
  have hlen : 0 ≤ (if response.content.length > 500 then (1/10:ℚ) else 0)
      + (if response.content.length > 1000 then (1/10:ℚ) else 0) := by
    split <;> split <;> norm_num
  have hmdl : 0 ≤ (if jsIncludes response.model "gpt-4" then (1/10:ℚ) else 0)
      + (if jsIncludes response.model "claude-3" then (1/10:ℚ) else 0) := by
    split <;> split <;> norm_num
  have heq : calculateConfidence response cw
      = mathMin (1/2 + cw.relevanceScore * (3/10)
          + ((cw.activeLayers.length : ℚ) / 11) * (2/10)
          + ((if response.content.length > 500 then (1/10:ℚ) else 0)
              + (if response.content.length > 1000 then (1/10:ℚ) else 0))
          + ((if jsIncludes response.model "gpt-4" then (1/10:ℚ) else 0)
              + (if jsIncludes response.model "claude-3" then (1/10:ℚ) else 0))) 1 := by
    unfold calculateConfidence
    ring_nf
  have hsum : 0 ≤ 1/2 + cw.relevanceScore * (3/10)
      + ((cw.activeLayers.length : ℚ) / 11) * (2/10)
      + ((if response.content.length > 500 then (1/10:ℚ) else 0)
          + (if response.content.length > 1000 then (1/10:ℚ) else 0))
      + ((if jsIncludes response.model "gpt-4" then (1/10:ℚ) else 0)
          + (if jsIncludes response.model "claude-3" then (1/10:ℚ) else 0)) := by
    have := add_nonneg (add_nonneg (add_nonneg (add_nonneg hb hr) hl) hlen) hmdl
    linarith
  refine ⟨⟨1/2, cw.relevanceScore * (3/10), ((cw.activeLayers.length : ℚ) / 11) * (2/10),
      _, _, hb, hr, hl, hlen, hmdl, rfl, rfl, rfl, heq⟩, ?_, ?_⟩
  · rw [heq]
    unfold mathMin
    by_cases hc : (1/2 + cw.relevanceScore * (3/10)
      + ((cw.activeLayers.length : ℚ) / 11) * (2/10)
      + ((if response.content.length > 500 then (1/10:ℚ) else 0)
          + (if response.content.length > 1000 then (1/10:ℚ) else 0))
      + ((if jsIncludes response.model "gpt-4" then (1/10:ℚ) else 0)
          + (if jsIncludes response.model "claude-3" then (1/10:ℚ) else 0))) ≤ 1
    · rw [if_pos hc]; exact hsum
    · rw [if_neg hc]; norm_num
  · rw [heq]
    unfold mathMin
    by_cases hc : (1/2 + cw.relevanceScore * (3/10)
      + ((cw.activeLayers.length : ℚ) / 11) * (2/10)
      + ((if response.content.length > 500 then (1/10:ℚ) else 0)
          + (if response.content.length > 1000 then (1/10:ℚ) else 0))
      + ((if jsIncludes response.model "gpt-4" then (1/10:ℚ) else 0)
          + (if jsIncludes response.model "claude-3" then (1/10:ℚ) else 0))) ≤ 1
    · rw [if_pos hc]; exact hc
    · rw [if_neg hc]

/-- Witness for C9 at a concrete response and window. -/
theorem calculateConfidence_bounded_additive_witness :
    0 ≤ calculateConfidence sampleResponse sampleWindow
      ∧ calculateConfidence sampleResponse sampleWindow ≤ 1 :=
  ⟨(calculateConfidence_bounded_additive sampleResponse sampleWindow
      (by norm_num [sampleWindow]) (by norm_num [sampleWindow])).2.1,
   (calculateConfidence_bounded_additive sampleResponse sampleWindow
      (by norm_num [sampleWindow]) (by norm_num [sampleWindow])).2.2⟩
